import Mathlib

/-!
Shallow embedding of the `order_total` microservice
(`src/order_total/src/main.rs`).

The service is a single HTTP handler.  We embed it as pure functions:

* the inbound request is a `Request` value (method, path, body string);
* the external rate-lookup service (reqwest) is a function
  `OutboundRequest → SendResult` passed to the handler, so that a theorem
  can quantify over every behaviour of the collaborator;
* the handler returns `Except HFailure HttpResponse`: `Except.error`
  models a failure that escapes the handler (a propagated `?` error or a
  panic), `Except.ok` a response actually sent to the client;
* Rust `f32` values are modelled as exact rationals `ℚ` (the code performs
  a single multiplication `subtotal * (1.0 + rate)`; we state the same
  formula over `ℚ`, with no rounding, as the spec's numeric section asks);
* `serde_json` parsing is embedded as an executable JSON parser over
  `List Char`, and `#[derive(Deserialize)] struct Order` as a field-by-field
  decoder over the parsed document, mirroring serde's required-field
  behaviour for this struct (all seven fields required, unknown fields
  ignored, missing fields reported in declaration order with the error
  text `missing field <name> at line 1 column <len>` as serde renders it
  for a one-line document).
-/

namespace OrderTotal

/-- Left brace character, by code point. -/
def lbrace : Char := Char.ofNat 123

/-- Right brace character, by code point. -/
def rbrace : Char := Char.ofNat 125

/-- HTTP methods relevant to the router (`hyper::Method`); `OTHER` stands
for any further method, which the router's catch-all arm handles. -/
inductive Method where
  | GET
  | POST
  | OPTIONS
  | PUT
  | DELETE
  | OTHER
deriving DecidableEq

/-- The `Order` struct of `main.rs` (lines 22-31).  `i32` fields become
`Int`, `f32` fields become `ℚ`, `String` fields stay `String`. -/
structure Order where
  order_id : Int
  product_id : Int
  quantity : Int
  subtotal : ℚ
  shipping_address : String
  shipping_zip : String
  total : ℚ
deriving DecidableEq

/-- An HTTP response as the handler builds it: status code, header list,
body bytes (as a string). -/
structure HttpResponse where
  status : Nat
  headers : List (String × String)
  body : String
deriving DecidableEq

/-- The request the handler sends to the rate-lookup service
(`client.post(url).body(zip)`, lines 104-109). -/
structure OutboundRequest where
  method : Method
  url : String
  body : String
deriving DecidableEq

instance {ε α : Type} [DecidableEq ε] [DecidableEq α] : DecidableEq (Except ε α) :=
  fun x y =>
    match x, y with
    | .ok a, .ok b =>
      if h : a = b then isTrue (by rw [h]) else isFalse (fun hh => h (Except.ok.inj hh))
    | .error a, .error b =>
      if h : a = b then isTrue (by rw [h]) else isFalse (fun hh => h (Except.error.inj hh))
    | .ok _, .error _ => isFalse (fun hh => Except.noConfusion hh)
    | .error _, .ok _ => isFalse (fun hh => Except.noConfusion hh)

/-- Outcome of `send().await` on the outbound call: `failed` is a
transport error (`Err` from reqwest), `response` carries the HTTP status
and the result of reading the body text (`response.text().await`, which
may itself fail). -/
inductive SendResult where
  | failed
  | response (status : Nat) (text : Except Unit String)
deriving DecidableEq

/-- How a handler run can escape without producing a response:
`propagated` is an `anyhow` error reaching the caller through `?`,
`panicked` is a Rust panic (the `i - 1` underflow in the error-message
transform, in a debug build). -/
inductive HFailure where
  | propagated
  | panicked
deriving DecidableEq

/-- An inbound HTTP request, reduced to what the handler reads: method,
URI path, and the full body. -/
structure Request where
  method : Method
  path : String
  body : String
deriving DecidableEq

/-! ## JSON documents and their grammar

`serde_json::from_slice` first parses the body as a JSON document; the
error envelopes of the service are also claimed (C10) to be or not be
well-formed JSON.  We embed a JSON value type and an executable
recursive-descent parser (fuel-indexed) for RFC 8259 documents. -/

/-- A JSON value. -/
inductive Json where
  | null
  | bool (b : Bool)
  | num (q : ℚ)
  | str (s : String)
  | arr (elems : List Json)
  | obj (members : List (String × Json))

/-- Drop leading JSON whitespace. -/
def skipWs (cs : List Char) : List Char :=
  cs.dropWhile (fun c => c == ' ' || c == '\t' || c == '\n' || c == '\r')

/-- Hexadecimal digit test, for `\u` escapes. -/
def isHexDigit (c : Char) : Bool :=
  c.isDigit || (('a' ≤ c) && (c ≤ 'f')) || (('A' ≤ c) && (c ≤ 'F'))

/-- Value of a hexadecimal digit. -/
def hexVal (c : Char) : Nat :=
  if c.isDigit then c.toNat - 48
  else if 'a' ≤ c then c.toNat - 87
  else c.toNat - 55

/-- Parse the body of a JSON string literal (the opening quote already
consumed), returning the decoded string and the rest of the input. -/
def parseStringBody : List Char → List Char → Option (String × List Char)
  | [], _ => none
  | '"' :: rest, acc => some (⟨acc.reverse⟩, rest)
  | '\\' :: 'u' :: h1 :: h2 :: h3 :: h4 :: rest, acc =>
    if isHexDigit h1 && isHexDigit h2 && isHexDigit h3 && isHexDigit h4 then
      parseStringBody rest
        (Char.ofNat (((hexVal h1 * 16 + hexVal h2) * 16 + hexVal h3) * 16 + hexVal h4) :: acc)
    else none
  | '\\' :: e :: rest, acc =>
    if e == '"' || e == '\\' || e == '/' then parseStringBody rest (e :: acc)
    else if e == 'b' then parseStringBody rest (Char.ofNat 8 :: acc)
    else if e == 'f' then parseStringBody rest (Char.ofNat 12 :: acc)
    else if e == 'n' then parseStringBody rest ('\n' :: acc)
    else if e == 'r' then parseStringBody rest ('\r' :: acc)
    else if e == 't' then parseStringBody rest ('\t' :: acc)
    else none
  | c :: rest, acc =>
    if c.toNat < 32 then none else parseStringBody rest (c :: acc)

/-- Numeric value of a digit string. -/
def digitsToNat (ds : List Char) : Nat :=
  ds.foldl (fun n c => 10 * n + (c.toNat - 48)) 0

/-- The exact rational `sgn * mant * 10 ^ e`, built with `mkRat` and
machine-level `Int`/`Nat` arithmetic only. -/
def scaledDecimal (neg : Bool) (mant : Nat) (e : Int) : ℚ :=
  let n : Int := if neg then -(Int.ofNat mant) else Int.ofNat mant
  if 0 ≤ e then mkRat (n * Int.ofNat (10 ^ e.toNat)) 1
  else mkRat n (10 ^ e.natAbs)

/-- Parse exponent digits with a given sign. -/
def parseExpDigits (neg : Bool) (cs : List Char) : Option (Int × List Char) :=
  let ds := cs.takeWhile Char.isDigit
  if ds.isEmpty then none
  else
    some ((if neg then -(Int.ofNat (digitsToNat ds)) else Int.ofNat (digitsToNat ds)),
      cs.drop ds.length)

/-- Parse an optionally signed exponent digit string. -/
def parseSignedExp : List Char → Option (Int × List Char)
  | '+' :: r2 => parseExpDigits false r2
  | '-' :: r2 => parseExpDigits true r2
  | r2 => parseExpDigits false r2

/-- Parse an optional exponent part (`e`/`E`, optional sign, digits);
yields the exponent value, `0` when absent. -/
def parseExpVal : List Char → Option (Int × List Char)
  | 'e' :: rest => parseSignedExp rest
  | 'E' :: rest => parseSignedExp rest
  | cs => some (0, cs)

/-- Parse a JSON number (RFC 8259 grammar: optional minus, integer part
with no leading zero, optional fraction, optional exponent). -/
def parseNumber (cs : List Char) : Option (ℚ × List Char) :=
  let p : Bool × List Char :=
    match cs with
    | '-' :: r => (true, r)
    | _ => (false, cs)
  let neg := p.1
  let cs1 := p.2
  let intDs := cs1.takeWhile Char.isDigit
  if intDs.isEmpty then none
  else if intDs.length > 1 && intDs.head? == some '0' then none
  else
    let cs2 := cs1.drop intDs.length
    match cs2 with
    | '.' :: r2 =>
      let fracDs := r2.takeWhile Char.isDigit
      if fracDs.isEmpty then none
      else
        (parseExpVal (r2.drop fracDs.length)).map (fun q =>
          (scaledDecimal neg (digitsToNat intDs * 10 ^ fracDs.length + digitsToNat fracDs)
            (q.1 - Int.ofNat fracDs.length), q.2))
    | _ =>
      (parseExpVal cs2).map (fun q => (scaledDecimal neg (digitsToNat intDs) q.1, q.2))

mutual

/-- Parse one JSON value (fuel-indexed recursive descent). -/
def parseValue : Nat → List Char → Option (Json × List Char)
  | 0, _ => none
  | fuel + 1, cs =>
    match skipWs cs with
    | [] => none
    | c :: rest =>
      if c == '"' then (parseStringBody rest []).map (fun q => (Json.str q.1, q.2))
      else if c == lbrace then
        match skipWs rest with
        | [] => none
        | c2 :: r2 =>
          if c2 == rbrace then some (Json.obj [], r2)
          else parseMembers fuel (c2 :: r2) []
      else if c == '[' then
        match skipWs rest with
        | [] => none
        | c2 :: r2 =>
          if c2 == ']' then some (Json.arr [], r2)
          else parseElems fuel (c2 :: r2) []
      else if c == 't' then
        match rest with
        | 'r' :: 'u' :: 'e' :: r2 => some (Json.bool true, r2)
        | _ => none
      else if c == 'f' then
        match rest with
        | 'a' :: 'l' :: 's' :: 'e' :: r2 => some (Json.bool false, r2)
        | _ => none
      else if c == 'n' then
        match rest with
        | 'u' :: 'l' :: 'l' :: r2 => some (Json.null, r2)
        | _ => none
      else (parseNumber (c :: rest)).map (fun q => (Json.num q.1, q.2))

/-- Parse object members after the opening brace (nonempty member list). -/
def parseMembers : Nat → List Char → List (String × Json) → Option (Json × List Char)
  | 0, _, _ => none
  | fuel + 1, cs, acc =>
    match skipWs cs with
    | c :: rest =>
      if c == '"' then
        match parseStringBody rest [] with
        | some (key, r1) =>
          (match skipWs r1 with
           | ':' :: r2 =>
             (match parseValue fuel r2 with
              | some (v, r3) =>
                (match skipWs r3 with
                 | c4 :: r4 =>
                   if c4 == ',' then parseMembers fuel r4 ((key, v) :: acc)
                   else if c4 == rbrace then some (Json.obj ((key, v) :: acc).reverse, r4)
                   else none
                 | [] => none)
              | none => none)
           | _ => none)
        | none => none
      else none
    | [] => none

/-- Parse array elements after the opening bracket (nonempty list). -/
def parseElems : Nat → List Char → List Json → Option (Json × List Char)
  | 0, _, _ => none
  | fuel + 1, cs, acc =>
    match parseValue fuel cs with
    | some (v, r1) =>
      (match skipWs r1 with
       | c2 :: r2 =>
         if c2 == ',' then parseElems fuel r2 (v :: acc)
         else if c2 == ']' then some (Json.arr (v :: acc).reverse, r2)
         else none
       | [] => none)
    | none => none

end

/-- Parse a complete JSON document: exactly one value, plus trailing
whitespace.  The fuel `2 * length + 8` exceeds the recursion depth any
input of that length can force. -/
def parseDoc (s : String) : Option Json :=
  match parseValue (2 * s.data.length + 8) s.data with
  | some (j, rest) => if (skipWs rest).isEmpty then some j else none
  | none => none

/-- A string is a well-formed JSON document iff the grammar accepts it. -/
def wellFormedJson (s : String) : Bool :=
  (parseDoc s).isSome

/-! ## Decoding an `Order` (`serde_json::from_slice::<Order>`) -/

/-- Look up a field of a parsed JSON object (first occurrence). -/
def lookupField (ms : List (String × Json)) (name : String) : Option Json :=
  (ms.find? (fun m => m.1 == name)).map (fun m => m.2)

/-- The `Order` struct's fields, in declaration order; serde's derived
deserializer reports the first of these that is absent. -/
def orderFieldNames : List String :=
  ["order_id", "product_id", "quantity", "subtotal", "shipping_address",
   "shipping_zip", "total"]

/-- First `Order` field absent from a parsed object, in declaration order. -/
def firstMissing (ms : List (String × Json)) : Option String :=
  orderFieldNames.find? (fun n => (lookupField ms n).isNone)

/-- Read a JSON value as a Rust `i32`: an integral number in range. -/
def asI32 : Option Json → Option Int
  | some (Json.num q) =>
    if q.den = 1 ∧ -(2 ^ 31) ≤ q.num ∧ q.num < 2 ^ 31 then some q.num else none
  | _ => none

/-- Read a JSON value as a Rust `f32` (any JSON number, modelled exactly). -/
def asF32 : Option Json → Option ℚ
  | some (Json.num q) => some q
  | _ => none

/-- Read a JSON value as a Rust `String`. -/
def asStr : Option Json → Option String
  | some (Json.str s) => some s
  | _ => none

/-- Models `serde_json::from_slice::<Order>` for the derived deserializer
of the `Order` struct: parse the body as a JSON document; require an
object; all seven fields are required (no `#[serde(default)]` on any of
them, in particular `total`), unknown fields are ignored; a missing field
is reported as serde renders it for a one-line document, `missing field
<name> at line 1 column <body length>` with the name backquoted.  (Error
precedence between ill-typed and missing fields, duplicate-field errors
and the exact wording of non-missing-field errors are simplified; no
claim depends on them, and the sanitization claims are stated over
arbitrary error texts.) -/
def decodeOrder (body : String) : Except String Order :=
  match parseDoc body with
  | some (Json.obj ms) =>
    (match firstMissing ms with
     | some name =>
       Except.error ("missing field `" ++ name ++ "` at line 1 column " ++
         toString body.length)
     | none =>
       match asI32 (lookupField ms ("order_id")), asI32 (lookupField ms ("product_id")),
             asI32 (lookupField ms ("quantity")), asF32 (lookupField ms ("subtotal")),
             asStr (lookupField ms ("shipping_address")),
             asStr (lookupField ms ("shipping_zip")), asF32 (lookupField ms ("total")) with
       | some a, some b, some c, some d, some e, some f, some g =>
         Except.ok ⟨a, b, c, d, e, f, g⟩
       | _, _, _, _, _, _, _ =>
         Except.error ("invalid type at line 1 column " ++ toString body.length))
  | some _ => Except.error ("invalid type: expected struct Order at line 1 column 1")
  | none => Except.error ("expected value at line 1 column 1")

/-! ## Error-message sanitization (`handle_request`, lines 76-86) -/

/-- Backtick character, by code point. -/
def backquote : Char := Char.ofNat 96

/-- First index at which `pat` occurs as a contiguous substring; models
`str::find` (byte indices and char indices coincide on the ASCII texts
involved). -/
def findSub (pat : List Char) : List Char → Option Nat
  | [] => if pat.isEmpty then some 0 else none
  | c :: rest =>
    if pat.isPrefixOf (c :: rest) then some 0
    else (findSub pat rest).map (fun i => i + 1)

/-- Models `str::contains` for string patterns. -/
def containsSub (s : String) (pat : String) : Bool :=
  (findSub pat.data s.data).isSome

/-- Models `str::replace` for a one-char pattern: every occurrence of
`old` becomes `new` (deleted when `new = none`). -/
def replaceChar (old : Char) (new : Option Char) (cs : List Char) : List Char :=
  cs.filterMap (fun c => if c == old then new else some c)

/-- The transform applied inside the missing-field branch:
`err_message.to_lowercase().replace backtick with nothing, then
underscore with a space` (lines 78-81). -/
def transformMissing (s : String) : String :=
  ⟨replaceChar '_' (some ' ') (replaceChar backquote none (s.data.map Char.toLower))⟩

/-- The full error-message sanitization of the decode-failure branch
(lines 76-86).  When the message contains `missing field` the code
lowercases, strips backticks, turns underscores into spaces, and then on
`err_message.find of the pattern a-t` returning `Some(i)` executes
`err_message.truncate(i - 1)`.  The subtraction `i - 1` is on `usize`:
at `i = 0` it underflows (a panic in a debug build), modelled here as
`none`.  Messages not containing `missing field` pass through unchanged. -/
def sanitizeMissingField (msg : String) : Option String :=
  if containsSub msg ("missing field") then
    match findSub (['a', 't']) (transformMissing msg).data with
    | some 0 => none
    | some (i + 1) => some ⟨(transformMissing msg).data.take i⟩
    | none => some (transformMissing msg)
  else some msg

/-! ## Parsing the rate-service response (`parse::<f32>`) -/

/-- Models `str::parse::<f32>` on its finite decimal forms: optional
sign, digits with optional fraction (at least one digit overall),
optional exponent, nothing trailing.  The special forms accepted by Rust
that produce non-finite floats (`inf`, `infinity`, `nan`) are outside
this exact-rational model and map to `none`; no claim involves them. -/
def parseRate (s : String) : Option ℚ :=
  let p : Bool × List Char :=
    match s.data with
    | '-' :: r => (true, r)
    | '+' :: r => (false, r)
    | _ => (false, s.data)
  let neg := p.1
  let cs1 := p.2
  let intDs := cs1.takeWhile Char.isDigit
  let cs2 := cs1.drop intDs.length
  let q : Option (ℚ × List Char) :=
    match cs2 with
    | '.' :: r2 =>
      let fracDs := r2.takeWhile Char.isDigit
      if intDs.isEmpty && fracDs.isEmpty then none
      else
        (parseExpVal (r2.drop fracDs.length)).map (fun q =>
          (scaledDecimal neg (digitsToNat intDs * 10 ^ fracDs.length + digitsToNat fracDs)
            (q.1 - Int.ofNat fracDs.length), q.2))
    | _ =>
      if intDs.isEmpty then none
      else (parseExpVal cs2).map (fun q => (scaledDecimal neg (digitsToNat intDs) q.1, q.2))
  match q with
  | some (v, []) => some v
  | _ => none

/-! ## Serializing an `Order` (`serde_json::to_string_pretty`) -/

/-- Lowercase hexadecimal digit for a value below 16. -/
def hexDigitChar (n : Nat) : Char :=
  if n < 10 then Char.ofNat (48 + n) else Char.ofNat (87 + n)

/-- JSON escaping of one character as serde_json emits it. -/
def escChar (c : Char) : List Char :=
  if c == '"' then ['\\', '"']
  else if c == '\\' then ['\\', '\\']
  else if c == '\n' then ['\\', 'n']
  else if c == '\r' then ['\\', 'r']
  else if c == '\t' then ['\\', 't']
  else if c == Char.ofNat 8 then ['\\', 'b']
  else if c == Char.ofNat 12 then ['\\', 'f']
  else if c.toNat < 32 then
    ['\\', 'u', '0', '0', hexDigitChar (c.toNat / 16), hexDigitChar (c.toNat % 16)]
  else [c]

/-- JSON string escaping as serde_json performs it when serializing. -/
def escapeJsonString (s : String) : String :=
  ⟨s.data.foldr (fun c acc => escChar c ++ acc) []⟩

/-- Least `k < 200` with `den ∣ 10 ^ k`, when one exists.  Every
f32-representable value has a power-of-two denominator, for which the
least such `k` is at most 149. -/
def decExpBound (den : Nat) : Option Nat :=
  (List.range 200).find? (fun k => 10 ^ k % den == 0)

/-- Pad a digit string with leading zeros up to `k` digits. -/
def padZeros (s : String) (k : Nat) : String :=
  ⟨List.replicate (k - s.length) '0'⟩ ++ s

/-- Decimal rendering of an f32-representable rational, modelling the
shortest-decimal (ryu) output serde_json uses for `f32` fields in the
non-exponential range: integral values get a trailing `.0`, others the
shortest exact fraction (minimality of `k` makes the last digit
nonzero). -/
def fmtF32 (q : ℚ) : String :=
  match decExpBound q.den with
  | some 0 => toString q.num ++ ".0"
  | some k =>
    let scaled : Int := q.num * ((10 ^ k / q.den : Nat) : Int)
    let sign := if scaled < 0 then "-" else ""
    let a := scaled.natAbs
    sign ++ toString (a / 10 ^ k) ++ "." ++ padZeros (toString (a % 10 ^ k)) k
  | none => toString q.num ++ "/" ++ toString q.den

/-- Models `serde_json::to_string_pretty(&order)` for the `Order` struct:
a two-space-indented object with the fields in declaration order. -/
def to_string_pretty (o : Order) : String :=
  "\x7b\n  \"order_id\": " ++ toString o.order_id ++
  ",\n  \"product_id\": " ++ toString o.product_id ++
  ",\n  \"quantity\": " ++ toString o.quantity ++
  ",\n  \"subtotal\": " ++ fmtF32 o.subtotal ++
  ",\n  \"shipping_address\": \"" ++ escapeJsonString o.shipping_address ++
  "\",\n  \"shipping_zip\": \"" ++ escapeJsonString o.shipping_zip ++
  "\",\n  \"total\": " ++ fmtF32 o.total ++ "\n\x7d"

/-! ## Responses, envelopes and configuration -/

/-- The fixed CORS header set of `response_build` (lines 126-136). -/
def corsHeaders : List (String × String) :=
  [("Access-Control-Allow-Origin", "*"),
   ("Access-Control-Allow-Methods", "GET, POST, OPTIONS"),
   ("Access-Control-Allow-Headers", "api,Keep-Alive,User-Agent,Content-Type")]

/-- `response_build` (lines 126-136): status 200 (the builder default),
the CORS headers, and the body as given. -/
def response_build (body : String) : HttpResponse :=
  ⟨200, corsHeaders, body⟩

/-- Literal head of the zip-error format string of `handle_order`
(line 119), up to the spliced zip. -/
def zipEnvelopeHead : String :=
  "\x7b\"status\":\"error\", \"message\":\"The zip code ("

/-- Literal tail of the zip-error format string of `handle_order`
(line 119), after the spliced zip. -/
def zipEnvelopeTail : String :=
  ") in the order does not have a corresponding sales tax rate.\"\x7d"

/-- The error envelope of the rate-lookup failure branch (line 119):
the order's `shipping_zip` spliced verbatim into the format string. -/
def zipErrorEnvelope (zip : String) : String :=
  zipEnvelopeHead ++ zip ++ zipEnvelopeTail

/-- Literal head of the decode-error format string of `handle_request`
(line 88), up to the spliced message. -/
def errEnvelopeHead : String :=
  "\x7b\"status\":\"error\", \"message\":\""

/-- Literal tail of the decode-error format string of `handle_request`
(line 88), after the spliced message. -/
def errEnvelopeTail : String :=
  "\"\x7d"

/-- The error envelope of the decode-failure branch (lines 87-88): the
sanitized message spliced verbatim into the format string. -/
def decodeErrorEnvelope (msg : String) : String :=
  errEnvelopeHead ++ msg ++ errEnvelopeTail

/-- The `SALES_TAX_RATE_SERVICE` lazy static (lines 12-20): the value of
the environment variable when set, the hardcoded default otherwise.
Resolved once and immutable; in this embedding it is a pure function of
the process environment. -/
def SALES_TAX_RATE_SERVICE (env : Option String) : String :=
  env.getD ("http://localhost:8001/find_rate")

/-- The outbound request `handle_order` sends (lines 104-109):
`client.post(url).body(order.shipping_zip.clone())`. -/
def outboundRequest (url : String) (o : Order) : OutboundRequest :=
  ⟨Method.POST, url, o.shipping_zip⟩

/-- Single-quote character, by code point. -/
def squote : String :=
  ⟨[Char.ofNat 39]⟩

/-- The instructions body served at `GET /` (lines 65-67). -/
def instructionsBody : String :=
  "Try POSTing data to /compute such as: `curl localhost:8002/compute -XPOST -d " ++
    squote ++ "..." ++ squote ++ "`"

/-! ## The handlers -/

/-- `handle_order` (lines 103-123).  The Rust signature nests two
`Result`s, but every arm of the inner `match` wraps `Ok`, so the inner
`Result` is always `Ok` and the nesting flattens: `Except.error` here is
exactly an outer `Err`, produced by the `?` operators on
`response.text()` and `parse::<f32>()` inside the status-200 arm.  Every
other send outcome (transport error or non-200 status) takes the
catch-all arm and yields the zip error envelope. -/
def handle_order (url : String) (order : Order)
    (world : OutboundRequest → SendResult) : Except HFailure HttpResponse :=
  match world (outboundRequest url order) with
  | SendResult.response s t =>
    if s = 200 then
      match t with
      | Except.error _ => Except.error HFailure.propagated
      | Except.ok txt =>
        match parseRate txt with
        | none => Except.error HFailure.propagated
        | some rate =>
          Except.ok (response_build (to_string_pretty
            { order with total := order.subtotal * (1 + rate) }))
    else Except.ok (response_build (zipErrorEnvelope order.shipping_zip))
  | SendResult.failed => Except.ok (response_build (zipErrorEnvelope order.shipping_zip))

/-- `handle_request` (lines 59-101): route on method and path; on
`POST /compute` decode the body and either run `handle_order` or build
the sanitized decode-error envelope (where the sanitizer's underflow is
a panic, `HFailure.panicked`); every unmatched route is a plain 404. -/
def handle_request (env : Option String) (req : Request)
    (world : OutboundRequest → SendResult) : Except HFailure HttpResponse :=
  if req.method = Method.OPTIONS ∧ req.path = "/compute" then
    Except.ok (response_build (""))
  else if req.method = Method.GET ∧ req.path = "/" then
    Except.ok ⟨200, [], instructionsBody⟩
  else if req.method = Method.POST ∧ req.path = "/compute" then
    (match decodeOrder req.body with
     | Except.ok o => handle_order (SALES_TAX_RATE_SERVICE env) o world
     | Except.error err =>
       match sanitizeMissingField err with
       | some m => Except.ok (response_build (decodeErrorEnvelope m))
       | none => Except.error HFailure.panicked)
  else
    Except.ok ⟨404, [], ""⟩

/-! ## Helper lemmas -/

/-- Reduction of the router on `POST /compute`. -/
theorem handle_request_post_compute (env : Option String) (b : String)
    (world : OutboundRequest → SendResult) :
    handle_request env ⟨Method.POST, "/compute", b⟩ world =
      match decodeOrder b with
      | Except.ok o => handle_order (SALES_TAX_RATE_SERVICE env) o world
      | Except.error err =>
        match sanitizeMissingField err with
        | some m => Except.ok (response_build (decodeErrorEnvelope m))
        | none => Except.error HFailure.panicked := by
  unfold handle_request
  dsimp only
  rw [if_neg (by decide), if_neg (by decide), if_pos (by decide)]

/-- Reduction of `handle_order` on a successful rate lookup. -/
theorem handle_order_success (url : String) (o : Order) (txt : String) (rate : ℚ)
    (world : OutboundRequest → SendResult)
    (hw : world (outboundRequest url o) = SendResult.response 200 (Except.ok txt))
    (hr : parseRate txt = some rate) :
    handle_order url o world =
      Except.ok (response_build (to_string_pretty
        { o with total := o.subtotal * (1 + rate) })) := by
  unfold handle_order
  rw [hw]
  simp [hr]

/-! ## Claims -/

/-- C5: Routing is total over method and path: `OPTIONS /compute` returns
status 200 with an empty body and the CORS headers; `GET /` returns the
plain-text usage instructions; and every (method, path) pair other than
`OPTIONS /compute`, `GET /`, and `POST /compute` — including any GET to a
path not equal to `/` — returns status 404 with an empty body. -/
theorem routing_total (env : Option String) (req : Request)
    (world : OutboundRequest → SendResult) :
    (req.method = Method.OPTIONS → req.path = "/compute" →
      handle_request env req world = Except.ok ⟨200, corsHeaders, ""⟩) ∧
    (req.method = Method.GET → req.path = "/" →
      handle_request env req world = Except.ok ⟨200, [], instructionsBody⟩) ∧
    (¬(req.method = Method.OPTIONS ∧ req.path = "/compute") →
     ¬(req.method = Method.GET ∧ req.path = "/") →
     ¬(req.method = Method.POST ∧ req.path = "/compute") →
      handle_request env req world = Except.ok ⟨404, [], ""⟩) := by
  refine ⟨?_, ?_, ?_⟩
  · intro hm hp
    simp [handle_request, hm, hp, response_build]
  · intro hm hp
    simp [handle_request, hm, hp]
  · intro h1 h2 h3
    simp only [handle_request, if_neg h1, if_neg h2, if_neg h3]

/-- C5 witness: concrete routing outcomes at `GET /unknown`,
`OPTIONS /compute` and `GET /`. -/
theorem routing_total_witness :
    handle_request none ⟨Method.GET, "/unknown", ""⟩ (fun _ => SendResult.failed) =
      Except.ok ⟨404, [], ""⟩ ∧
    handle_request none ⟨Method.OPTIONS, "/compute", ""⟩ (fun _ => SendResult.failed) =
      Except.ok ⟨200, corsHeaders, ""⟩ ∧
    handle_request none ⟨Method.GET, "/", ""⟩ (fun _ => SendResult.failed) =
      Except.ok ⟨200, [], instructionsBody⟩ := by
  refine ⟨?_, ?_, ?_⟩
  · exact (routing_total none ⟨Method.GET, "/unknown", ""⟩ (fun _ => SendResult.failed)).2.2
      (by decide) (by decide) (by decide)
  · exact (routing_total none ⟨Method.OPTIONS, "/compute", ""⟩ (fun _ => SendResult.failed)).1
      rfl rfl
  · exact (routing_total none ⟨Method.GET, "/", ""⟩ (fun _ => SendResult.failed)).2.1
      rfl rfl

/-- C7: the outbound call is a POST whose body is exactly the order's
`shipping_zip` (raw), to the URL the environment variable selects
(defaulting to the hardcoded endpoint); `handle_order` consults the
external world only through that one request. -/
theorem outbound_request_spec (env : Option String) (o : Order) (u : String) :
    (outboundRequest (SALES_TAX_RATE_SERVICE env) o).method = Method.POST ∧
    (outboundRequest (SALES_TAX_RATE_SERVICE env) o).body = o.shipping_zip ∧
    (outboundRequest (SALES_TAX_RATE_SERVICE env) o).url = SALES_TAX_RATE_SERVICE env ∧
    SALES_TAX_RATE_SERVICE (some u) = u ∧
    SALES_TAX_RATE_SERVICE none = "http://localhost:8001/find_rate" ∧
    ∀ w1 w2 : OutboundRequest → SendResult,
      w1 (outboundRequest (SALES_TAX_RATE_SERVICE env) o) =
        w2 (outboundRequest (SALES_TAX_RATE_SERVICE env) o) →
      handle_order (SALES_TAX_RATE_SERVICE env) o w1 =
        handle_order (SALES_TAX_RATE_SERVICE env) o w2 := by
  refine ⟨rfl, rfl, rfl, rfl, rfl, ?_⟩
  intro w1 w2 h
  unfold handle_order
  rw [h]

/-- C7 witness: the specification instantiated at a concrete order and
two concrete worlds agreeing on the one outbound request. -/
theorem outbound_request_spec_witness :
    handle_order (SALES_TAX_RATE_SERVICE none)
        ⟨1, 2, 3, mkRat 10 1, "x", "10001", 0⟩ (fun _ => SendResult.failed) =
      handle_order (SALES_TAX_RATE_SERVICE none)
        ⟨1, 2, 3, mkRat 10 1, "x", "10001", 0⟩
        (fun r => if r.method = Method.POST then SendResult.failed
          else SendResult.response 500 (Except.ok "")) := by
  exact (outbound_request_spec none ⟨1, 2, 3, mkRat 10 1, "x", "10001", 0⟩ "u").2.2.2.2.2
    (fun _ => SendResult.failed)
    (fun r => if r.method = Method.POST then SendResult.failed
      else SendResult.response 500 (Except.ok ""))
    (by decide)

/-- C8: the handler is deterministic: with the same request and a rate
service giving the same response, two runs yield identical results
(the embedding is a pure function; no state is shared between runs). -/
theorem handler_deterministic (env : Option String) (req : Request)
    (w1 w2 : OutboundRequest → SendResult) (h : ∀ r, w1 r = w2 r) :
    handle_request env req w1 = handle_request env req w2 := by
  have hw : w1 = w2 := funext h
  rw [hw]

/-- A complete, valid JSON body for an `Order` (all seven fields). -/
def orderBodyFull : String :=
  "\x7b\"order_id\":1,\"product_id\":2,\"quantity\":3,\"subtotal\":10.0,\"shipping_address\":\"x\",\"shipping_zip\":\"10001\",\"total\":0.0\x7d"

/-- The spec's concrete decode-failure body: an order body with no
`quantity` field. -/
def specBodyNoQuantity : String :=
  "\x7b\"order_id\":1,\"product_id\":2,\"subtotal\":10.0,\"shipping_address\":\"x\",\"shipping_zip\":\"10001\"\x7d"

/-- An order body carrying every field except `total`. -/
def specBodyNoTotal : String :=
  "\x7b\"order_id\":1,\"product_id\":2,\"quantity\":3,\"subtotal\":10.0,\"shipping_address\":\"x\",\"shipping_zip\":\"10001\"\x7d"

/-- A rate service answering HTTP 200 with a body that is not a decimal
rate. -/
def worldBadRateBody : OutboundRequest → SendResult :=
  fun _ => SendResult.response 200 (Except.ok ("not a rate"))

/-- A rate service answering HTTP 200 with body `0.05`. -/
def world05 : OutboundRequest → SendResult :=
  fun _ => SendResult.response 200 (Except.ok ("0.05"))

/-- A rate service answering HTTP 404. -/
def world404 : OutboundRequest → SendResult :=
  fun _ => SendResult.response 404 (Except.ok (""))

/-- C2 counterexample: for a valid order and a rate service answering
HTTP status 200 with a body that does not parse as a decimal rate, the
handler does not return the zip error envelope — the parse failure
propagates out of the handler as a hard error. -/
theorem rate_parse_failure_propagates :
    handle_request none ⟨Method.POST, "/compute", orderBodyFull⟩ worldBadRateBody =
      Except.error HFailure.propagated ∧
    handle_request none ⟨Method.POST, "/compute", orderBodyFull⟩ worldBadRateBody ≠
      Except.ok (response_build (zipErrorEnvelope ("10001"))) := by
  refine ⟨by decide, by decide⟩

/-- C2 amended: a rate-lookup outcome that is not an HTTP-200 response
(non-200 status or transport failure) uniformly yields a 200 response
with the zip error envelope naming the literal shipping zip; but a 200
response whose body fails to read or fails to parse as a decimal rate
propagates the failure to the caller as a hard error. -/
theorem rate_lookup_failure_behavior (url : String) (o : Order)
    (world : OutboundRequest → SendResult) :
    ((∀ t, world (outboundRequest url o) ≠ SendResult.response 200 t) →
      handle_order url o world =
        Except.ok (response_build (zipErrorEnvelope o.shipping_zip))) ∧
    (∀ txt, world (outboundRequest url o) = SendResult.response 200 (Except.ok txt) →
      parseRate txt = none →
      handle_order url o world = Except.error HFailure.propagated) ∧
    (world (outboundRequest url o) = SendResult.response 200 (Except.error ()) →
      handle_order url o world = Except.error HFailure.propagated) := by
  refine ⟨?_, ?_, ?_⟩
  · intro h
    unfold handle_order
    cases hw : world (outboundRequest url o) with
    | failed => rfl
    | response s t =>
      have hs : ¬(s = 200) := by
        intro hs200
        exact h t (by rw [hw, hs200])
      simp [hs]
  · intro txt hw hr
    unfold handle_order
    rw [hw]
    simp [hr]
  · intro hw
    unfold handle_order
    rw [hw]
    simp

/-- C2 witness: the envelope branch at a concrete order and a rate
service answering 404. -/
theorem rate_lookup_failure_behavior_witness :
    handle_order (SALES_TAX_RATE_SERVICE none)
        ⟨1, 2, 3, mkRat 10 1, "x", "10001", 0⟩ world404 =
      Except.ok (response_build (zipErrorEnvelope ("10001"))) := by
  exact (rate_lookup_failure_behavior (SALES_TAX_RATE_SERVICE none)
    ⟨1, 2, 3, mkRat 10 1, "x", "10001", 0⟩ world404).1
    (fun t h => by simp [world404] at h)

/-- C9: the missing-field sanitization is total only under the
precondition that the first occurrence of the substring consisting of
the letters a and t in the transformed message is at some index i ≥ 1:
there the code truncates to the first i - 1 characters; at index 0 the
usize computation i - 1 underflows (modelled as `none`, a panic in a
debug build); with no occurrence the transformed message passes through
whole. -/
theorem sanitize_partiality (msg : String)
    (h : containsSub msg ("missing field") = true) :
    (findSub (['a', 't']) (transformMissing msg).data = some 0 →
      sanitizeMissingField msg = none) ∧
    (∀ i, findSub (['a', 't']) (transformMissing msg).data = some (i + 1) →
      sanitizeMissingField msg = some ⟨(transformMissing msg).data.take i⟩) ∧
    (findSub (['a', 't']) (transformMissing msg).data = none →
      sanitizeMissingField msg = some (transformMissing msg)) := by
  unfold sanitizeMissingField
  rw [if_pos h]
  refine ⟨?_, ?_, ?_⟩
  · intro hf
    rw [hf]
  · intro i hf
    rw [hf]
  · intro hf
    rw [hf]

/-- C9 witness: the truncation branch at the concrete serde message for
a missing `quantity` field, whose first occurrence of the letters a-t
is at index 23. -/
theorem sanitize_partiality_witness :
    containsSub ("missing field `quantity` at line 1 column 90") ("missing field") = true ∧
    sanitizeMissingField ("missing field `quantity` at line 1 column 90") =
      some ("missing field quantity") := by
  refine ⟨by decide, ?_⟩
  have h := (sanitize_partiality ("missing field `quantity` at line 1 column 90")
    (by decide)).2.1 22 (by decide)
  rw [h]
  decide

/-- Modelled from claim C3's words, for comparison with the code: the
claimed transform lowercases and then removes both backtick and
underscore characters. -/
def claimedTransformC3 (s : String) : String :=
  ⟨replaceChar '_' none (replaceChar backquote none (s.data.map Char.toLower))⟩

/-- C3 counterexample: on the decoder error text for a missing
`shipping_zip` field, the code's transform replaces the underscore with
a space, while the claim's transform (underscores removed) yields a
different string. -/
theorem sanitize_underscore_counterexample :
    sanitizeMissingField ("missing field `shipping_zip`") =
      some ("missing field shipping zip") ∧
    claimedTransformC3 ("missing field `shipping_zip`") = "missing field shippingzip" ∧
    ("missing field shipping zip" : String) ≠ "missing field shippingzip" := by
  refine ⟨by decide, by decide, by decide⟩

/-- C3 amended: for decode-failure texts containing `missing field`, the
returned message is the text lowercased, with backticks removed and each
underscore replaced by a space, truncated at the position just before
the first occurrence of the letters a-t when present; all other texts
are returned unchanged.  Concretely, the spec's body with no `quantity`
field yields exactly the envelope with message `missing field quantity`
and no trailing location text. -/
theorem sanitize_transform_spec (msg : String) :
    (containsSub msg ("missing field") = false → sanitizeMissingField msg = some msg) ∧
    (containsSub msg ("missing field") = true →
      ∀ i, findSub (['a', 't']) (transformMissing msg).data = some (i + 1) →
      sanitizeMissingField msg = some ⟨(transformMissing msg).data.take i⟩) ∧
    (containsSub msg ("missing field") = true →
      findSub (['a', 't']) (transformMissing msg).data = none →
      sanitizeMissingField msg = some (transformMissing msg)) ∧
    (∀ w, handle_request none ⟨Method.POST, "/compute", specBodyNoQuantity⟩ w =
      Except.ok (response_build (decodeErrorEnvelope ("missing field quantity")))) := by
  refine ⟨?_, ?_, ?_, ?_⟩
  · intro h
    unfold sanitizeMissingField
    rw [if_neg (by simp [h])]
  · intro h i hf
    unfold sanitizeMissingField
    rw [if_pos h, hf]
  · intro h hf
    unfold sanitizeMissingField
    rw [if_pos h, hf]
  · intro w
    rw [handle_request_post_compute]
    rfl

/-- C3 witness: the pass-through branch on a non-missing-field text and
the truncation branch on the serde message for a missing `total`. -/
theorem sanitize_transform_spec_witness :
    sanitizeMissingField ("expected value at line 1 column 1") =
      some ("expected value at line 1 column 1") ∧
    sanitizeMissingField ("missing field `total` at line 1 column 104") =
      some ("missing field total") := by
  refine ⟨(sanitize_transform_spec _).1 (by decide), ?_⟩
  have h := (sanitize_transform_spec ("missing field `total` at line 1 column 104")).2.1
    (by decide) 19 (by decide)
  rw [h]
  decide

/-- Reduction of the full handler on the success path: `POST /compute`,
decodable body, rate lookup answering 200 with a parseable rate. -/
theorem handle_request_success (env : Option String) (req : Request)
    (world : OutboundRequest → SendResult) (o : Order) (txt : String) (rate : ℚ)
    (hm : req.method = Method.POST) (hp : req.path = "/compute")
    (hdec : decodeOrder req.body = Except.ok o)
    (hw : world (outboundRequest (SALES_TAX_RATE_SERVICE env) o) =
      SendResult.response 200 (Except.ok txt))
    (hr : parseRate txt = some rate) :
    handle_request env req world =
      Except.ok (response_build (to_string_pretty
        { o with total := o.subtotal * (1 + rate) })) := by
  obtain ⟨m, p, b⟩ := req
  have hm' : m = Method.POST := hm
  have hp' : p = "/compute" := hp
  subst hm' hp'
  rw [handle_request_post_compute]
  have hdec' : decodeOrder b = Except.ok o := hdec
  rw [hdec']
  exact handle_order_success _ o txt rate world hw hr

/-- C1: for every decoded Order, when the rate lookup returns HTTP
status exactly 200 and its body parses as a decimal rate r, the handler
sets total = subtotal * (1 + r) and returns a 200 response whose body is
the pretty-printed order including the computed total, wrapped with the
CORS headers; in particular the rate body `0.05` parses to 1/20, making
the total subtotal * 1.05. -/
theorem compute_success_total (env : Option String) (req : Request)
    (world : OutboundRequest → SendResult) (o : Order) (txt : String) (rate : ℚ)
    (hm : req.method = Method.POST) (hp : req.path = "/compute")
    (hdec : decodeOrder req.body = Except.ok o)
    (hw : world (outboundRequest (SALES_TAX_RATE_SERVICE env) o) =
      SendResult.response 200 (Except.ok txt))
    (hr : parseRate txt = some rate) :
    handle_request env req world =
      Except.ok ⟨200, corsHeaders,
        to_string_pretty { o with total := o.subtotal * (1 + rate) }⟩ ∧
    parseRate ("0.05") = some (1 / 20 : ℚ) ∧
    o.subtotal * (1 + (1 / 20 : ℚ)) = o.subtotal * (105 / 100) := by
  refine ⟨?_, ?_, ?_⟩
  · exact handle_request_success env req world o txt rate hm hp hdec hw hr
  · have h : parseRate ("0.05") = some (mkRat 5 100) := rfl
    rw [h, Rat.mkRat_eq_divInt, Rat.divInt_eq_div]
    norm_num
  · norm_num

/-- C1 witness: the success equality at a concrete order body and a
rate service answering 200 with body `0.05`. -/
theorem compute_success_total_witness :
    handle_request none ⟨Method.POST, "/compute", orderBodyFull⟩ world05 =
      Except.ok ⟨200, corsHeaders,
        to_string_pretty
          { order_id := 1, product_id := 2, quantity := 3, subtotal := mkRat 10 1,
            shipping_address := "x", shipping_zip := "10001",
            total := mkRat 10 1 * (1 + mkRat 5 100) }⟩ := by
  exact (compute_success_total none ⟨Method.POST, "/compute", orderBodyFull⟩ world05
    ⟨1, 2, 3, mkRat 10 1, "x", "10001", mkRat 0 1⟩ ("0.05") (mkRat 5 100)
    rfl rfl (by decide) rfl rfl).1

/-- C6: on the success path, every input field other than total appears
unchanged in the serialized order of the response body; total is the
only field the handler overwrites. -/
theorem success_frame (env : Option String) (req : Request)
    (world : OutboundRequest → SendResult) (o : Order) (txt : String) (rate : ℚ)
    (hm : req.method = Method.POST) (hp : req.path = "/compute")
    (hdec : decodeOrder req.body = Except.ok o)
    (hw : world (outboundRequest (SALES_TAX_RATE_SERVICE env) o) =
      SendResult.response 200 (Except.ok txt))
    (hr : parseRate txt = some rate) :
    ∃ o' : Order,
      handle_request env req world = Except.ok ⟨200, corsHeaders, to_string_pretty o'⟩ ∧
      o'.order_id = o.order_id ∧ o'.product_id = o.product_id ∧
      o'.quantity = o.quantity ∧ o'.subtotal = o.subtotal ∧
      o'.shipping_address = o.shipping_address ∧ o'.shipping_zip = o.shipping_zip ∧
      o'.total = o.subtotal * (1 + rate) := by
  refine ⟨{ o with total := o.subtotal * (1 + rate) }, ?_, rfl, rfl, rfl, rfl, rfl, rfl, rfl⟩
  exact handle_request_success env req world o txt rate hm hp hdec hw hr

/-- C6 witness: the frame property at a concrete order and rate. -/
theorem success_frame_witness :
    ∃ o' : Order,
      handle_request none ⟨Method.POST, "/compute", orderBodyFull⟩ world05 =
        Except.ok ⟨200, corsHeaders, to_string_pretty o'⟩ ∧
      o'.order_id = (1 : Int) ∧ o'.product_id = (2 : Int) ∧ o'.quantity = (3 : Int) ∧
      o'.subtotal = mkRat 10 1 ∧ o'.shipping_address = "x" ∧
      o'.shipping_zip = "10001" ∧ o'.total = mkRat 10 1 * (1 + mkRat 5 100) := by
  exact success_frame none ⟨Method.POST, "/compute", orderBodyFull⟩ world05
    ⟨1, 2, 3, mkRat 10 1, "x", "10001", mkRat 0 1⟩ ("0.05") (mkRat 5 100)
    rfl rfl (by decide) rfl rfl

/-- C4 counterexample: the body carrying every field except total fails
to decode — `total` has no serde default, so it is required on input —
and even with a working rate service the handler returns the
missing-field error envelope instead of proceeding to the tax
calculation. -/
theorem total_required_counterexample :
    decodeOrder specBodyNoTotal =
      Except.error ("missing field `total` at line 1 column 104") ∧
    handle_request none ⟨Method.POST, "/compute", specBodyNoTotal⟩ world05 =
      Except.ok (response_build (decodeErrorEnvelope ("missing field total"))) := by
  refine ⟨by decide, by decide⟩

/-- C4 amended: the `total` field must be present for the body to
decode, but its input value never influences the response: the handler
overwrites it before any observable use, so two orders differing only in
`total` produce identical outcomes against any rate service. -/
theorem total_input_irrelevant (url : String) (o : Order) (t t' : ℚ)
    (world : OutboundRequest → SendResult) :
    handle_order url { o with total := t } world =
      handle_order url { o with total := t' } world ∧
    decodeOrder specBodyNoTotal =
      Except.error ("missing field `total` at line 1 column 104") := by
  refine ⟨rfl, by decide⟩

/-- The two-character string backslash, double quote. -/
def zipBackslashQuote : String := "\\\""

/-- C10 counterexample: a shipping zip containing both a double quote
and a backslash whose splice lands as a valid JSON string escape, so the
resulting envelope is well-formed JSON, contradicting the universal
claim that any such zip breaks well-formedness. -/
theorem envelope_escape_counterexample :
    zipBackslashQuote.data.contains '"' = true ∧
    zipBackslashQuote.data.contains '\\' = true ∧
    wellFormedJson (zipErrorEnvelope zipBackslashQuote) = true := by
  refine ⟨by decide, by decide, by decide⟩

/-- C10 amended: both envelopes splice the raw text verbatim between
fixed head and tail strings with no JSON escaping; some spliced texts
containing a double quote (for example a lone quote) make the body
ill-formed JSON, though not every text containing a quote or backslash
does. -/
theorem envelope_verbatim_splice (zip msg : String) :
    zipErrorEnvelope zip = zipEnvelopeHead ++ zip ++ zipEnvelopeTail ∧
    decodeErrorEnvelope msg = errEnvelopeHead ++ msg ++ errEnvelopeTail ∧
    wellFormedJson (zipErrorEnvelope ("10001")) = true ∧
    wellFormedJson (zipErrorEnvelope ("\"")) = false ∧
    wellFormedJson (decodeErrorEnvelope ("\"")) = false := by
  refine ⟨rfl, rfl, by decide, by decide, by decide⟩

/-- C8 witness: determinism instantiated at a concrete valid request and
two extensionally equal worlds. -/
theorem handler_deterministic_witness :
    handle_request none ⟨Method.OPTIONS, "/compute", ""⟩
        (fun _ => SendResult.response 200 (Except.ok "0.05")) =
      handle_request none ⟨Method.OPTIONS, "/compute", ""⟩
        (fun r => SendResult.response (if r.url = r.url then 200 else 404) (Except.ok "0.05")) := by
  exact handler_deterministic none ⟨Method.OPTIONS, "/compute", ""⟩ _ _
    (fun r => by simp)

end OrderTotal
